import Mathlib

/-!
Verification of the speech-recognition pipeline build script
(`examples/libtorchaudio/speech_recognition/build_pipeline.py`) and the
model package index (`torchaudio/models/__init__.py`).

The script's own logic (argument parsing, stage wiring, the order of the
serialization steps) is embedded as pure Lean functions.  Calls into the
external ML libraries (fairseq checkpoint loading, the acoustic model's
forward pass, the `simple_ctc` beam-search decoder, `torch.jit` save) are
modelled as components of an abstract `World`: arbitrary functions whose
results the script consumes, with an `Option`/`Bool` result where the
Python call can raise.  Runs are reified as traces of `Event`s (log lines
and artifact writes) so that ordering and partial-failure properties of
`_main` can be stated.
-/

namespace BuildPipeline

/-- An opaque handle standing for the loaded acoustic model
(`_get_model`'s result); the architecture itself is out of scope. -/
abbrev Model := Nat

/-- The per-frame emission matrix produced by the encoder stage.
Its contents are produced and consumed only by external-library
functions, so any inhabited carrier works; rows of integers keep the
type concrete and decidable. -/
abbrev Emission := List (List Int)

/-- A decoded waveform: the sample buffer together with the sample rate
reported by `torchaudio.load` (resp. established by resampling). -/
structure Waveform where
  data : List Int
  sampleRate : Nat
  deriving DecidableEq, Repr

/-- Result object returned by `simple_ctc.BeamSearchDecoder.decode`:
`label_sequences[batch][hypothesis]` is a list of label strings
(each label a list of characters). -/
structure DecodeResult where
  label_sequences : List (List (List (List Char)))

/-- A serialized artifact, identified by the stage wrapper it was
scripted from.  Only the encoder artifact can be quantized or
mobile-optimized, mirroring lines 169-189 of the script where those
passes are applied to the encoder alone. -/
inductive Artifact where
  | loader
  | decoder
  | encoder (quantized : Bool) (mobileOptimized : Bool)
  deriving DecidableEq, Repr

/-- Observable steps of a run of `_main`: log lines and artifact writes. -/
inductive Event where
  | logEncoder
  | logQuantize
  | logTesting (file : String)
  | logTranscript (t : List Char)
  | write (path : String) (a : Artifact)
  deriving DecidableEq, Repr

/-- Errors that abort a run of `_main` (all are uncaught Python
exceptions; the script installs no handler). `badOutputPath` is the
`TypeError` raised by `os.path.join(None, ...)` when `--output-path`
was not given. -/
inductive BuildError where
  | modelLoadFailed
  | audioLoadFailed
  | decodeIndexError
  | badOutputPath
  | saveFailed (name : String)
  deriving DecidableEq, Repr

/-- The external libraries the script calls into, as an abstract
environment.  `loadModel` is `_get_model` (fairseq checkpoint load plus
import), `decodeAudio` is `torchaudio.load`, `resampleData` the sample
transformation of `torchaudio.functional.resample`, `encode` the
acoustic model forward (second argument: whether dynamic quantization
was applied), `ctcDecode` the beam-search decoder, and `saveOk` whether
scripting-and-saving a given artifact to a given path succeeds. -/
structure World where
  loadModel : String → Option String → Option Model
  decodeAudio : String → Option (List Int × Nat)
  resampleData : List Int → Nat → Nat → List Int
  encode : Model → Bool → List Int → Emission
  ctcDecode : Emission → DecodeResult
  saveOk : String → Artifact → Bool

/-- Modelled from the spec: `torchaudio.functional.resample` belongs to
the repository but is not among the fragment's sources, and the spec
places resampling out of scope while guaranteeing the converted output
is at the target rate.  The sample transformation is therefore kept
abstract (`resampleData` of the environment) and the result carries the
target sample rate. -/
def resample (w : World) (d : List Int) (srcRate dstRate : Nat) : Waveform :=
  { data := w.resampleData d srcRate dstRate, sampleRate := dstRate }

/-- Loader.forward (build_pipeline.py lines 65-70): decode the file at
`audio_path`; if the native sample rate differs from 16000, resample to
16000.  A `none` result is `torchaudio.load` raising. -/
def Loader.forward (w : World) (audio_path : String) : Option Waveform :=
  match w.decodeAudio audio_path with
  | none => none
  | some (wfdata, sample_rate) =>
    if sample_rate ≠ 16000 then
      some (resample w wfdata sample_rate 16000)
    else
      some { data := wfdata, sampleRate := sample_rate }

/-- Single-character `str.replace` as used on line 90:
`.replace(old, new)` with one-character `old` and `new` replaces every
occurrence of `old` by `new`. -/
def pyReplaceChar (s : List Char) (old new : Char) : List Char :=
  s.map (fun c => if c = old then new else c)

/-- Decoder.forward (build_pipeline.py lines 88-90): run the beam-search
decoder, take `label_sequences[0][0]`, join the labels into one string
and replace each word-boundary symbol by a space.  A `none` result is
the `IndexError` Python would raise if either list were empty. -/
def Decoder.forward (decode : Emission → DecodeResult) (emission : Emission) :
    Option (List Char) :=
  match (decode emission).label_sequences with
  | [] => none
  | batch0 :: _ =>
    match batch0 with
    | [] => none
    | hyp0 :: _ => some (pyReplaceChar hyp0.flatten '|' ' ')

/-- Configuration record passed to `simple_ctc.BeamSearchDecoder` in
`_get_decoder` (lines 129-139). -/
structure BeamSearchDecoderConfig where
  labels : List (List Char)
  cutoff_top_n : Nat
  cutoff_prob : Rat
  beam_size : Nat
  num_processes : Nat
  blank_id : Nat
  is_nll : Bool
  deriving DecidableEq, Repr

/-- The fixed label list of `_get_decoder` (lines 94-127), in source
order.  The 28th entry is the apostrophe. -/
def decoderLabels : List (List Char) :=
  [ ['<', 's', '>'],
    ['<', 'p', 'a', 'd', '>'],
    ['<', '/', 's', '>'],
    ['<', 'u', 'n', 'k', '>'],
    ['|'],
    ['E'], ['T'], ['A'], ['O'], ['N'], ['I'], ['H'], ['S'], ['R'], ['D'],
    ['L'], ['U'], ['M'], ['W'], ['C'], ['F'], ['G'], ['Y'], ['P'], ['B'],
    ['V'], ['K'], [Char.ofNat 39], ['X'], ['J'], ['Q'], ['Z'] ]

/-- The decoder configuration built by `_get_decoder` (lines 129-139). -/
def getDecoderConfig : BeamSearchDecoderConfig :=
  { labels := decoderLabels
    cutoff_top_n := 40
    cutoff_prob := 8 / 10
    beam_size := 100
    num_processes := 1
    blank_id := 0
    is_nll := true }

/-- The 26 capital Latin letters, used to state the alphabet claim. -/
def latinLetters : List Char :=
  ['A', 'B', 'C', 'D', 'E', 'F', 'G', 'H', 'I', 'J', 'K', 'L', 'M',
   'N', 'O', 'P', 'Q', 'R', 'S', 'T', 'U', 'V', 'W', 'X', 'Y', 'Z']

/-- The parsed configuration produced by `_parse_args` (lines 20-62).
`model_file` is declared `required=True`; every other option is
optional, so it is an `Option`/defaulted-`false` field here. -/
structure Args where
  model_file : String
  dict_dir : Option String
  output_path : Option String
  test_file : Option String
  debug : Bool
  quantize : Bool
  optimize_for_mobile : Bool
  deriving DecidableEq, Repr

/-- Intermediate state while scanning the command line: every option is
still unset/false. -/
structure ParseState where
  model_file : Option String
  dict_dir : Option String
  output_path : Option String
  test_file : Option String
  debug : Bool
  quantize : Bool
  optimize_for_mobile : Bool
  deriving DecidableEq, Repr

/-- The empty parse state (no option seen yet). -/
def ParseState.initial : ParseState :=
  { model_file := none, dict_dir := none, output_path := none,
    test_file := none, debug := false, quantize := false,
    optimize_for_mobile := false }

/-- Outcome of `_parse_args`: `help` is argparse's auto-added `-h` and
`--help` action (prints usage, exits 0); `usageError` is argparse's
error path (prints usage, exits 2); `ok` returns the namespace. -/
inductive ParseResult where
  | help
  | usageError (msg : String)
  | ok (args : Args)
  deriving DecidableEq, Repr

/-- The long option strings the parser accepts: the seven options added
by `_parse_args` (lines 24-61) plus argparse's auto-added `--help`. -/
def longOptions : List String :=
  ["--help", "--model-file", "--dict-dir", "--output-path", "--test-file",
   "--debug", "--quantize", "--optimize-for-mobile"]

/-- The characters of a token up to (excluding) the first equals sign;
the whole token when it has none.  Argparse matches the option part of
`--opt=value` spellings this way. -/
def beforeEq : List Char → List Char
  | [] => []
  | c :: cs => if c = '=' then [] else c :: beforeEq cs

/-- The characters after the first equals sign, when the token has one:
the inline value of an `--opt=value` spelling. -/
def afterEq : List Char → Option (List Char)
  | [] => none
  | c :: cs => if c = '=' then some cs else afterEq cs

/-- Result of matching one token against the long option table. -/
inductive LongMatch where
  | unique (canonical : String) (inlineValue : Option String)
  | ambiguous
  | noMatch
  deriving DecidableEq, Repr

/-- Argparse long-option resolution with the default unique-prefix
abbreviation (`allow_abbrev=True`, which the script does not disable):
a token starting with `--` matches the long options of which its part
before any `=` is a prefix.  Exactly one candidate resolves to that
canonical option (with the inline value, if spelled `--opt=value`);
several candidates are an ambiguity error; none, or a token that is not
a long option, is no match.  An exact option string is the unique
prefix of itself here because no option of this parser is a prefix of
another. -/
def resolveLong (t : String) : LongMatch :=
  match t.data with
  | '-' :: '-' :: _ =>
    match longOptions.filter (fun o => (beforeEq t.data).isPrefixOf o.data) with
    | [o] => LongMatch.unique o ((afterEq t.data).map fun cs => String.mk cs)
    | [] => LongMatch.noMatch
    | _ => LongMatch.ambiguous
  | _ => LongMatch.noMatch

/-- Scan the tokens of the command line, filling the parse state.  Each
token is resolved against the option table (full spellings and
argparse's unique-prefix abbreviations alike); a value-taking option
uses its inline `=value` or else consumes the next token, a
`store_true` flag rejects an inline value, an unknown or ambiguous
token is an argparse error.  A token resolving to `--help` cannot reach
this function from `parseArgs`, which intercepts help first. -/
def parseTokens : List String → ParseState → Except String ParseState
  | [], st => Except.ok st
  | tok :: rest, st =>
    match resolveLong tok with
    | LongMatch.noMatch => Except.error ("unrecognized arguments: " ++ tok)
    | LongMatch.ambiguous => Except.error ("ambiguous option: " ++ tok)
    | LongMatch.unique o iv =>
      if o = "--model-file" then
        match iv with
        | some v => parseTokens rest { st with model_file := some v }
        | none =>
          match rest with
          | [] => Except.error "argument --model-file: expected one argument"
          | v :: rest2 => parseTokens rest2 { st with model_file := some v }
      else if o = "--dict-dir" then
        match iv with
        | some v => parseTokens rest { st with dict_dir := some v }
        | none =>
          match rest with
          | [] => Except.error "argument --dict-dir: expected one argument"
          | v :: rest2 => parseTokens rest2 { st with dict_dir := some v }
      else if o = "--output-path" then
        match iv with
        | some v => parseTokens rest { st with output_path := some v }
        | none =>
          match rest with
          | [] => Except.error "argument --output-path: expected one argument"
          | v :: rest2 => parseTokens rest2 { st with output_path := some v }
      else if o = "--test-file" then
        match iv with
        | some v => parseTokens rest { st with test_file := some v }
        | none =>
          match rest with
          | [] => Except.error "argument --test-file: expected one argument"
          | v :: rest2 => parseTokens rest2 { st with test_file := some v }
      else if o = "--debug" then
        match iv with
        | some _ => Except.error "argument --debug: ignored explicit argument"
        | none => parseTokens rest { st with debug := true }
      else if o = "--quantize" then
        match iv with
        | some _ => Except.error "argument --quantize: ignored explicit argument"
        | none => parseTokens rest { st with quantize := true }
      else if o = "--optimize-for-mobile" then
        match iv with
        | some _ =>
          Except.error "argument --optimize-for-mobile: ignored explicit argument"
        | none => parseTokens rest { st with optimize_for_mobile := true }
      else
        Except.error "help requested"

/-- Whether the command line requests argparse's auto-added help, as
`-h` or any spelling resolving to `--help` (abbreviations included). -/
def helpRequested : List String → Bool
  | [] => false
  | t :: l =>
    t = "-h" ||
      (match resolveLong t with
       | LongMatch.unique o _ => o = "--help"
       | _ => false) ||
      helpRequested l

/-- Whether some token of the command line supplies the `--model-file`
option, in any spelling argparse accepts: the full option string, the
`--model-file=value` form, or a unique prefix abbreviation of either. -/
def suppliesModelFile : List String → Bool
  | [] => false
  | t :: l =>
    (match resolveLong t with
     | LongMatch.unique o _ => o = "--model-file"
     | _ => false) ||
      suppliesModelFile l

/-- `_parse_args` (lines 20-62): scan the command line; help wins over
everything else; the `required=True` check for `--model-file` fires
after scanning, as argparse checks required options at the end. -/
def parseArgs (argv : List String) : ParseResult :=
  if helpRequested argv then ParseResult.help
  else
    match parseTokens argv ParseState.initial with
    | Except.error m => ParseResult.usageError m
    | Except.ok st =>
      match st.model_file with
      | none =>
        ParseResult.usageError
          "the following arguments are required: --model-file"
      | some mf =>
        ParseResult.ok
          { model_file := mf, dict_dir := st.dict_dir,
            output_path := st.output_path, test_file := st.test_file,
            debug := st.debug, quantize := st.quantize,
            optimize_for_mobile := st.optimize_for_mobile }

/-- POSIX `os.path.join` restricted to the relative file names the
script joins (never absolute, never empty): empty directory yields the
name, a directory ending in a slash is concatenated directly, otherwise
a slash is inserted. -/
def osPathJoin (dir name : String) : String :=
  if dir = "" then name
  else if dir.data.getLast? = some '/' then dir ++ name
  else dir ++ "/" ++ name

/-- The serialization tail of `_main` (lines 184-189): join the output
path with each artifact name and save, in the order loader.zip,
decoder.zip, encoder.zip; the mobile optimization pass is applied to
the scripted encoder just before its save.  When `--output-path` was
not given, `os.path.join(None, 'loader.zip')` raises before anything is
written. -/
def runSaves (w : World) (args : Args) (q : Bool) (evs : List Event) :
    List Event × Option BuildError :=
  match args.output_path with
  | none => (evs, some BuildError.badOutputPath)
  | some out =>
    let p1 := osPathJoin out "loader.zip"
    if w.saveOk p1 Artifact.loader then
      let p2 := osPathJoin out "decoder.zip"
      if w.saveOk p2 Artifact.decoder then
        let p3 := osPathJoin out "encoder.zip"
        let a3 := Artifact.encoder q args.optimize_for_mobile
        if w.saveOk p3 a3 then
          (evs ++ [Event.write p1 Artifact.loader,
                   Event.write p2 Artifact.decoder,
                   Event.write p3 a3], none)
        else
          (evs ++ [Event.write p1 Artifact.loader,
                   Event.write p2 Artifact.decoder],
           some (BuildError.saveFailed "encoder.zip"))
      else
        (evs ++ [Event.write p1 Artifact.loader],
         some (BuildError.saveFailed "decoder.zip"))
    else (evs, some (BuildError.saveFailed "loader.zip"))

/-- The self-test block of `_main` (lines 177-182): log the test file,
run the Loader, Encoder and Decoder stages in sequence, log the
resulting transcript. -/
def runTest (w : World) (model : Model) (q : Bool) (f : String) :
    List Event × Option BuildError :=
  match Loader.forward w f with
  | none => ([Event.logTesting f], some BuildError.audioLoadFailed)
  | some wf =>
    match Decoder.forward w.ctcDecode (w.encode model q wf.data) with
    | none => ([Event.logTesting f], some BuildError.decodeIndexError)
    | some t => ([Event.logTesting f, Event.logTranscript t], none)

/-- The log events of lines 167-174: the encoder is logged once, and
when quantization is requested the quantization notice and the
quantized encoder are logged as well. -/
def logPrefix (q : Bool) : List Event :=
  if q then [Event.logEncoder, Event.logQuantize, Event.logEncoder]
  else [Event.logEncoder]

/-- The body of `_main` after argument parsing (lines 162-189): load
the model, log the encoder, optionally quantize (logging before and
after), optionally self-test, then serialize the three stages.  The
result is the trace of observable events together with the error that
aborted the run, if any. -/
def mainRun (w : World) (args : Args) : List Event × Option BuildError :=
  match w.loadModel args.model_file args.dict_dir with
  | none => ([], some BuildError.modelLoadFailed)
  | some model =>
    let q := args.quantize
    let evs0 := logPrefix q
    match args.test_file with
    | none => runSaves w args q evs0
    | some f =>
      match runTest w model q f with
      | (tevs, some e) => (evs0 ++ tevs, some e)
      | (tevs, none) => runSaves w args q (evs0 ++ tevs)

/-- Whether an event is an artifact write. -/
def Event.isWrite : Event → Bool
  | Event.write _ _ => true
  | _ => false

/-- The artifact writes of a trace, in order. -/
def writesOf (evs : List Event) : List Event :=
  evs.filter Event.isWrite

/-- The three writes a fully successful run performs, in order. -/
def tripleWrites (out : String) (q m : Bool) : List Event :=
  [Event.write (osPathJoin out "loader.zip") Artifact.loader,
   Event.write (osPathJoin out "decoder.zip") Artifact.decoder,
   Event.write (osPathJoin out "encoder.zip") (Artifact.encoder q m)]

/-- A concrete benign environment used to instantiate the theorems:
every external call succeeds, the decoder returns one hypothesis whose
labels spell H, I, the word boundary, A. -/
def sampleWorld : World :=
  { loadModel := fun _ _ => some 0
    decodeAudio := fun _ => some ([1, 2], 16000)
    resampleData := fun d _ _ => d
    encode := fun _ _ _ => [[0]]
    ctcDecode := fun _ => { label_sequences := [[[['H'], ['I'], ['|'], ['A']]]] }
    saveOk := fun _ _ => true }

/-- A concrete environment in which saving `out/encoder.zip` fails and
everything else succeeds. -/
def encoderSaveFailsWorld : World :=
  { sampleWorld with saveOk := fun p _ => p != "out/encoder.zip" }

/-- A concrete environment in which the beam-search decoder returns one
batch with one hypothesis whose label sequence is empty, so the
transcript is the empty string. -/
def emptyTranscriptWorld : World :=
  { sampleWorld with ctcDecode := fun _ => { label_sequences := [[[]]] } }

/-- A concrete configuration: model file and output path given, no
self-test, mobile optimization on. -/
def okArgs : Args :=
  { model_file := "m.pt", dict_dir := none, output_path := some "out",
    test_file := none, debug := false, quantize := false,
    optimize_for_mobile := true }

/-- A concrete configuration with a self-test file given. -/
def testArgs : Args :=
  { model_file := "m.pt", dict_dir := none, output_path := some "out",
    test_file := some "t.wav", debug := false, quantize := false,
    optimize_for_mobile := false }

/-- A concrete configuration with no output path given. -/
def noOutputArgs : Args :=
  { model_file := "m.pt", dict_dir := none, output_path := none,
    test_file := none, debug := false, quantize := false,
    optimize_for_mobile := false }

end BuildPipeline

namespace ModelsIndex

/-- The names bound at module top level by the import statements of
`torchaudio/models/__init__.py` (lines 1-4), in source order. -/
def importedNames : List String :=
  ["Wav2Letter", "WaveRNN", "ConvTasNet", "wav2vec2"]

/-- The `__all__` list of `torchaudio/models/__init__.py` (lines 6-10). -/
def dunderAll : List String :=
  ["Wav2Letter", "WaveRNN", "ConvTasNet"]

end ModelsIndex

namespace BuildPipeline

/-- Filtering writes distributes over trace concatenation. -/
lemma writesOf_append (l1 l2 : List Event) :
    writesOf (l1 ++ l2) = writesOf l1 ++ writesOf l2 := by
  simp [writesOf, List.filter_append]

/-- The pre-serialization log events contain no write. -/
lemma writesOf_logPrefix (q : Bool) : writesOf (logPrefix q) = [] := by
  cases q <;> rfl

/-- The three serialization events are all writes. -/
lemma writesOf_tripleWrites (out : String) (q m : Bool) :
    writesOf (tripleWrites out q m) = tripleWrites out q m := rfl

/-- A successful self-test logs the test file and then the transcript. -/
lemma runTest_snd_none (w : World) (model : Model) (q : Bool) (f : String)
    (tevs : List Event) (h : runTest w model q f = (tevs, none)) :
    ∃ t, tevs = [Event.logTesting f, Event.logTranscript t] := by
  unfold runTest at h
  split at h
  · simp at h
  · split at h
    · simp at h
    · simp only [Prod.mk.injEq] at h
      exact ⟨_, h.1.symm⟩

/-- A failing self-test logs only the test file. -/
lemma runTest_snd_some (w : World) (model : Model) (q : Bool) (f : String)
    (tevs : List Event) (e : BuildError)
    (h : runTest w model q f = (tevs, some e)) :
    tevs = [Event.logTesting f] := by
  unfold runTest at h
  split at h
  · simp only [Prod.mk.injEq] at h
    exact h.1.symm
  · split at h
    · simp only [Prod.mk.injEq] at h
      exact h.1.symm
    · simp at h

/-- A successful serialization tail requires an output path and appends
exactly the three writes. -/
lemma runSaves_eq_none (w : World) (args : Args) (q : Bool)
    (evs0 evs : List Event) (h : runSaves w args q evs0 = (evs, none)) :
    ∃ out, args.output_path = some out ∧
      evs = evs0 ++ tripleWrites out q args.optimize_for_mobile := by
  unfold runSaves at h
  split at h
  · simp at h
  · rename_i out hop
    refine ⟨out, hop, ?_⟩
    by_cases h1 : w.saveOk (osPathJoin out "loader.zip") Artifact.loader <;>
      simp [h1] at h
    by_cases h2 : w.saveOk (osPathJoin out "decoder.zip") Artifact.decoder <;>
      simp [h2] at h
    by_cases h3 : w.saveOk (osPathJoin out "encoder.zip")
        (Artifact.encoder q args.optimize_for_mobile) <;>
      simp [h3] at h
    rw [← h]
    rfl

/-- A failing serialization tail appends a strict, in-order prefix of
the three writes (and nothing else). -/
lemma runSaves_eq_some (w : World) (args : Args) (q : Bool)
    (evs0 evs : List Event) (e : BuildError)
    (h : runSaves w args q evs0 = (evs, some e)) :
    ∃ l rest, evs = evs0 ++ l ∧ writesOf l = l ∧ rest ≠ [] ∧
      l ++ rest = tripleWrites (args.output_path.getD "") q
        args.optimize_for_mobile := by
  unfold runSaves at h
  split at h
  · rename_i hop
    rw [hop]
    simp only [Prod.mk.injEq] at h
    refine ⟨[], tripleWrites "" q args.optimize_for_mobile,
            by simp [h.1.symm], rfl, by simp [tripleWrites], rfl⟩
  · rename_i out hop
    rw [hop]
    by_cases h1 : w.saveOk (osPathJoin out "loader.zip") Artifact.loader <;>
      simp [h1] at h
    · by_cases h2 : w.saveOk (osPathJoin out "decoder.zip") Artifact.decoder <;>
        simp [h2] at h
      · by_cases h3 : w.saveOk (osPathJoin out "encoder.zip")
            (Artifact.encoder q args.optimize_for_mobile) <;>
          simp [h3] at h
        exact ⟨[Event.write (osPathJoin out "loader.zip") Artifact.loader,
                Event.write (osPathJoin out "decoder.zip") Artifact.decoder],
               [Event.write (osPathJoin out "encoder.zip")
                  (Artifact.encoder q args.optimize_for_mobile)],
               h.1.symm, rfl, by simp, rfl⟩
      · exact ⟨[Event.write (osPathJoin out "loader.zip") Artifact.loader],
               [Event.write (osPathJoin out "decoder.zip") Artifact.decoder,
                Event.write (osPathJoin out "encoder.zip")
                  (Artifact.encoder q args.optimize_for_mobile)],
               h.1.symm, rfl, by simp, rfl⟩
    · exact ⟨[], tripleWrites out q args.optimize_for_mobile,
             by simp [h.1.symm], rfl, by simp [tripleWrites], rfl⟩

/-- Normal form of a fully successful run: the model loaded, an output
path was present, and the trace is the log prefix, then (if a test file
was given) the two self-test log events, then the three writes. -/
lemma mainRun_eq_none (w : World) (args : Args) (evs : List Event)
    (h : mainRun w args = (evs, none)) :
    ∃ out, args.output_path = some out ∧
      ((args.test_file = none ∧
        evs = logPrefix args.quantize ++
          tripleWrites out args.quantize args.optimize_for_mobile) ∨
       (∃ f t, args.test_file = some f ∧
        evs = logPrefix args.quantize ++
          [Event.logTesting f, Event.logTranscript t] ++
          tripleWrites out args.quantize args.optimize_for_mobile)) := by
  unfold mainRun at h
  split at h
  · simp at h
  · rename_i model hm
    split at h
    · rename_i htf
      obtain ⟨out, hop, hevs⟩ := runSaves_eq_none w args args.quantize _ _ h
      exact ⟨out, hop, Or.inl ⟨htf, hevs⟩⟩
    · rename_i f htf
      dsimp only at h
      split at h
      · simp at h
      · rename_i tevs hrt
        obtain ⟨out, hop, hevs⟩ := runSaves_eq_none w args args.quantize _ _ h
        obtain ⟨t, htevs⟩ := runTest_snd_none w model args.quantize f tevs hrt
        subst htevs
        exact ⟨out, hop, Or.inr ⟨f, t, htf, by simpa using hevs⟩⟩

/-- Normal form of an aborted run: the writes performed so far are a
strict, in-order prefix of the three planned writes. -/
lemma mainRun_eq_some (w : World) (args : Args) (evs : List Event)
    (e : BuildError) (h : mainRun w args = (evs, some e)) :
    ∃ rest, rest ≠ [] ∧
      writesOf evs ++ rest =
        tripleWrites (args.output_path.getD "") args.quantize
          args.optimize_for_mobile := by
  unfold mainRun at h
  split at h
  · simp only [Prod.mk.injEq] at h
    rw [← h.1]
    exact ⟨_, by simp [tripleWrites], rfl⟩
  · rename_i model hm
    split at h
    · rename_i htf
      obtain ⟨l, rest, hevs, hwl, hrne, hlr⟩ :=
        runSaves_eq_some w args args.quantize _ _ e h
      refine ⟨rest, hrne, ?_⟩
      rw [hevs, writesOf_append, writesOf_logPrefix, hwl]
      simpa using hlr
    · rename_i f htf
      dsimp only at h
      split at h
      · rename_i tevs e' hrt
        simp only [Prod.mk.injEq] at h
        have htevs := runTest_snd_some w model args.quantize f tevs e' hrt
        rw [← h.1, htevs, writesOf_append, writesOf_logPrefix]
        refine ⟨tripleWrites (args.output_path.getD "") args.quantize
                  args.optimize_for_mobile, by simp [tripleWrites], ?_⟩
        simp [writesOf, Event.isWrite]
      · rename_i tevs hrt
        obtain ⟨l, rest, hevs, hwl, hrne, hlr⟩ :=
          runSaves_eq_some w args args.quantize _ _ e h
        obtain ⟨t, htevs⟩ := runTest_snd_none w model args.quantize f tevs hrt
        refine ⟨rest, hrne, ?_⟩
        rw [hevs, htevs, writesOf_append, writesOf_append, writesOf_logPrefix,
          hwl]
        simpa [writesOf, Event.isWrite] using hlr

/-- Argparse's default unique-prefix abbreviation is modelled: the
abbreviated spelling `--model` resolves to `--model-file`, so this
command line parses exactly like the full spelling does. -/
lemma parseArgs_abbreviated_model_file :
    parseArgs ["--model", "m.pt"] = ParseResult.ok noOutputArgs := rfl

/-- The abbreviated spelling counts as supplying `--model-file`. -/
lemma suppliesModelFile_abbreviated :
    suppliesModelFile ["--model", "m.pt"] = true := rfl

/-- An ambiguous abbreviation (`--o` starts both `--output-path` and
`--optimize-for-mobile`) is a usage error, as in argparse. -/
lemma parseArgs_ambiguous_abbreviation :
    parseArgs ["--o", "x"] =
      ParseResult.usageError "ambiguous option: --o" := rfl

/-- Replacing every occurrence of `old` by a different character leaves
no occurrence of `old`. -/
lemma pyReplaceChar_not_mem (s : List Char) (old new : Char)
    (hne : new ≠ old) : old ∉ pyReplaceChar s old new := by
  intro hmem
  rw [pyReplaceChar, List.mem_map] at hmem
  obtain ⟨c, -, hc⟩ := hmem
  by_cases hco : c = old
  · rw [if_pos hco] at hc
    exact hne hc
  · rw [if_neg hco] at hc
    exact hco hc

/-- Claim C1: for every audio file path (whose decode succeeds, yielding
samples `d` at native rate `sr`), the Loader stage returns a waveform at
16000 Hz; when `sr` differs from 16000 the result is the waveform
resampled to 16000, and when `sr` is already 16000 the decoded waveform
is returned unchanged. -/
theorem loader_output_always_16000 (w : World) (path : String)
    (d : List Int) (sr : Nat) (h : w.decodeAudio path = some (d, sr)) :
    (∃ wf, Loader.forward w path = some wf ∧ wf.sampleRate = 16000) ∧
    (sr = 16000 → Loader.forward w path = some { data := d, sampleRate := sr }) ∧
    (sr ≠ 16000 → Loader.forward w path = some (resample w d sr 16000)) := by
  have heq : Loader.forward w path =
      if sr ≠ 16000 then some (resample w d sr 16000)
      else some { data := d, sampleRate := sr } := by
    unfold Loader.forward
    rw [h]
  by_cases h16 : sr = 16000
  · rw [heq, if_neg (fun hne => hne h16)]
    exact ⟨⟨_, rfl, h16⟩, fun _ => rfl, fun hne => absurd h16 hne⟩
  · rw [heq, if_pos h16]
    exact ⟨⟨_, rfl, rfl⟩, fun he => absurd he h16, fun _ => rfl⟩

/-- Witness for C1 at a concrete world and path whose native rate is
already 16000. -/
theorem loader_output_always_16000_witness :
    (∃ wf, Loader.forward sampleWorld "t.wav" = some wf ∧
      wf.sampleRate = 16000) ∧
    (16000 = 16000 → Loader.forward sampleWorld "t.wav" =
      some { data := [1, 2], sampleRate := 16000 }) ∧
    (16000 ≠ 16000 → Loader.forward sampleWorld "t.wav" =
      some (resample sampleWorld [1, 2] 16000 16000)) :=
  loader_output_always_16000 sampleWorld "t.wav" [1, 2] 16000 rfl

/-- Claim C2: whatever the beam-search decoder returns, the transcript
produced by the Decoder stage never contains the word-boundary symbol:
every occurrence of the bar character is replaced by a space. -/
theorem decoder_transcript_no_word_boundary
    (decode : Emission → DecodeResult) (e : Emission) (t : List Char)
    (h : Decoder.forward decode e = some t) : '|' ∉ t := by
  unfold Decoder.forward at h
  split at h
  · cases h
  · split at h
    · cases h
    · injection h with h'
      rw [← h']
      exact pyReplaceChar_not_mem _ '|' ' ' (by decide)

/-- Witness for C2 at a concrete emission and decoder result. -/
theorem decoder_transcript_no_word_boundary_witness :
    '|' ∉ (['H', 'I', ' ', 'A'] : List Char) :=
  decoder_transcript_no_word_boundary sampleWorld.ctcDecode [[0]]
    ['H', 'I', ' ', 'A'] rfl

/-- Claim C3: `_get_decoder` builds the beam-search decoder with the
spec's exact configuration: a 32-symbol alphabet containing the
word-boundary bar, the sentence markers, the 26 Latin letters and the
apostrophe; blank at index 0; beam width 100; top-40 pruning; cutoff
probability 0.8; one process; log-likelihood input convention. -/
theorem decoder_config_matches_spec :
    getDecoderConfig.labels = decoderLabels ∧
    decoderLabels.length = 32 ∧
    getDecoderConfig.blank_id = 0 ∧
    ['|'] ∈ decoderLabels ∧
    ['<', 's', '>'] ∈ decoderLabels ∧
    ['<', '/', 's', '>'] ∈ decoderLabels ∧
    latinLetters.length = 26 ∧
    (latinLetters.all fun c => decoderLabels.contains [c]) = true ∧
    [Char.ofNat 39] ∈ decoderLabels ∧
    getDecoderConfig.beam_size = 100 ∧
    getDecoderConfig.cutoff_top_n = 40 ∧
    getDecoderConfig.cutoff_prob = 8 / 10 ∧
    getDecoderConfig.num_processes = 1 ∧
    getDecoderConfig.is_nll = true := by
  refine ⟨rfl, rfl, rfl, ?_, ?_, ?_, rfl, ?_, ?_, rfl, rfl, rfl, rfl, rfl⟩ <;>
    decide

/-- Claim C6: the Decoder stage is deterministic; equal emission
matrices produce equal transcripts. -/
theorem decoder_deterministic (decode : Emission → DecodeResult)
    (e1 e2 : Emission) (h : e1 = e2) :
    Decoder.forward decode e1 = Decoder.forward decode e2 := by
  rw [h]

/-- Witness for C6 at a concrete emission. -/
theorem decoder_deterministic_witness :
    Decoder.forward sampleWorld.ctcDecode [[0]] =
      Decoder.forward sampleWorld.ctcDecode [[0]] :=
  decoder_deterministic sampleWorld.ctcDecode [[0]] [[0]] rfl

/-- Claim C4: every successful run writes exactly three artifacts,
loader.zip then decoder.zip then encoder.zip, joined onto the output
path, each serialized from one stage wrapper; the mobile-optimization
flag is recorded on the encoder artifact and nowhere else. -/
theorem success_writes_exactly_three_artifacts (w : World) (args : Args)
    (evs : List Event) (h : mainRun w args = (evs, none)) :
    ∃ out, args.output_path = some out ∧
      writesOf evs =
        [Event.write (osPathJoin out "loader.zip") Artifact.loader,
         Event.write (osPathJoin out "decoder.zip") Artifact.decoder,
         Event.write (osPathJoin out "encoder.zip")
           (Artifact.encoder args.quantize args.optimize_for_mobile)] := by
  obtain ⟨out, hop, hshape⟩ := mainRun_eq_none w args evs h
  refine ⟨out, hop, ?_⟩
  rcases hshape with ⟨-, hevs⟩ | ⟨f, t, -, hevs⟩
  · rw [hevs, writesOf_append, writesOf_logPrefix, writesOf_tripleWrites]
    rfl
  · rw [hevs, writesOf_append, writesOf_append, writesOf_logPrefix,
      writesOf_tripleWrites]
    simp [writesOf, Event.isWrite, tripleWrites]

/-- Witness for C4 at a concrete world and configuration with the
mobile-optimization flag set. -/
theorem success_writes_exactly_three_artifacts_witness :
    ∃ out, okArgs.output_path = some out ∧
      writesOf [Event.logEncoder,
        Event.write "out/loader.zip" Artifact.loader,
        Event.write "out/decoder.zip" Artifact.decoder,
        Event.write "out/encoder.zip" (Artifact.encoder false true)] =
        [Event.write (osPathJoin out "loader.zip") Artifact.loader,
         Event.write (osPathJoin out "decoder.zip") Artifact.decoder,
         Event.write (osPathJoin out "encoder.zip")
           (Artifact.encoder okArgs.quantize okArgs.optimize_for_mobile)] :=
  success_writes_exactly_three_artifacts sampleWorld okArgs
    [Event.logEncoder,
     Event.write "out/loader.zip" Artifact.loader,
     Event.write "out/decoder.zip" Artifact.decoder,
     Event.write "out/encoder.zip" (Artifact.encoder false true)] (by rfl)

/-- Counterexample to C7 as stated: a successful run with a test file
in which the decoder returns an empty label sequence, so the only
transcript ever logged is the empty string — no non-empty transcript
is logged. -/
theorem transcript_may_be_empty_counterexample :
    testArgs.test_file = some "t.wav" ∧
    mainRun emptyTranscriptWorld testArgs =
      ([Event.logEncoder, Event.logTesting "t.wav", Event.logTranscript [],
        Event.write "out/loader.zip" Artifact.loader,
        Event.write "out/decoder.zip" Artifact.decoder,
        Event.write "out/encoder.zip" (Artifact.encoder false false)],
       none) ∧
    (∀ t, Event.logTranscript t ∈
        [Event.logEncoder, Event.logTesting "t.wav", Event.logTranscript [],
         Event.write "out/loader.zip" Artifact.loader,
         Event.write "out/decoder.zip" Artifact.decoder,
         Event.write "out/encoder.zip" (Artifact.encoder false false)] →
      t = []) := by
  refine ⟨rfl, by rfl, ?_⟩
  intro t ht
  simp at ht
  exact ht

/-- Claim C7 (amended): in every successful run with a test file given,
the Loader-Encoder-Decoder chain runs and the resulting transcript —
possibly empty — is logged, and this log event precedes the three
artifact writes, with nothing written before it. -/
theorem transcript_logged_before_writes (w : World) (args : Args)
    (f : String) (evs : List Event) (hf : args.test_file = some f)
    (h : mainRun w args = (evs, none)) :
    ∃ out t pre,
      args.output_path = some out ∧
      writesOf pre = [] ∧
      evs = pre ++ Event.logTranscript t ::
        tripleWrites out args.quantize args.optimize_for_mobile := by
  obtain ⟨out, hop, hshape⟩ := mainRun_eq_none w args evs h
  rcases hshape with ⟨hnone, -⟩ | ⟨fx, t, -, hevs⟩
  · rw [hf] at hnone
    cases hnone
  · refine ⟨out, t, logPrefix args.quantize ++ [Event.logTesting fx],
      hop, ?_, ?_⟩
    · rw [writesOf_append, writesOf_logPrefix]
      rfl
    · rw [hevs]
      simp

/-- Witness for the amended C7 at a concrete world and configuration. -/
theorem transcript_logged_before_writes_witness :
    ∃ out t pre,
      testArgs.output_path = some out ∧
      writesOf pre = [] ∧
      ([Event.logEncoder, Event.logTesting "t.wav",
        Event.logTranscript ['H', 'I', ' ', 'A'],
        Event.write "out/loader.zip" Artifact.loader,
        Event.write "out/decoder.zip" Artifact.decoder,
        Event.write "out/encoder.zip" (Artifact.encoder false false)] :
        List Event) = pre ++ Event.logTranscript t ::
        tripleWrites out testArgs.quantize testArgs.optimize_for_mobile :=
  transcript_logged_before_writes sampleWorld testArgs "t.wav"
    [Event.logEncoder, Event.logTesting "t.wav",
     Event.logTranscript ['H', 'I', ' ', 'A'],
     Event.write "out/loader.zip" Artifact.loader,
     Event.write "out/decoder.zip" Artifact.decoder,
     Event.write "out/encoder.zip" (Artifact.encoder false false)] rfl (by rfl)

/-- Claim C8: an aborted run has performed a strict in-order prefix of
the three artifact writes, with no retry and no cleanup event (first
conjunct: every failing run), and in particular a run whose encoder
save fails leaves loader.zip and decoder.zip written but not
encoder.zip (second conjunct: concrete partial-failure run). -/
theorem abort_leaves_ordered_partial_writes :
    (∀ w args evs e, mainRun w args = (evs, some e) →
      ∃ rest, rest ≠ [] ∧
        writesOf evs ++ rest =
          tripleWrites (args.output_path.getD "") args.quantize
            args.optimize_for_mobile) ∧
    (mainRun encoderSaveFailsWorld okArgs =
      ([Event.logEncoder,
        Event.write "out/loader.zip" Artifact.loader,
        Event.write "out/decoder.zip" Artifact.decoder],
       some (BuildError.saveFailed "encoder.zip")) ∧
     writesOf [Event.logEncoder,
        Event.write "out/loader.zip" Artifact.loader,
        Event.write "out/decoder.zip" Artifact.decoder] =
       [Event.write "out/loader.zip" Artifact.loader,
        Event.write "out/decoder.zip" Artifact.decoder]) :=
  ⟨fun w args evs e h => mainRun_eq_some w args evs e h, by rfl, rfl⟩

/-- Witness for C8's universal part at the concrete partial-failure
run. -/
theorem abort_leaves_ordered_partial_writes_witness :
    ∃ rest, rest ≠ [] ∧
      writesOf [Event.logEncoder,
          Event.write "out/loader.zip" Artifact.loader,
          Event.write "out/decoder.zip" Artifact.decoder] ++ rest =
        tripleWrites (okArgs.output_path.getD "") okArgs.quantize
          okArgs.optimize_for_mobile :=
  abort_leaves_ordered_partial_writes.1 encoderSaveFailsWorld okArgs
    [Event.logEncoder,
     Event.write "out/loader.zip" Artifact.loader,
     Event.write "out/decoder.zip" Artifact.decoder]
    (BuildError.saveFailed "encoder.zip") (by rfl)

/-- A serialization tail with no output path fails at the path join
before writing anything. -/
lemma runSaves_no_output (w : World) (args : Args) (q : Bool)
    (evs0 : List Event) (hop : args.output_path = none) :
    runSaves w args q evs0 = (evs0, some BuildError.badOutputPath) := by
  unfold runSaves
  rw [hop]

/-- The encoder log line is always in the log prefix. -/
lemma logEncoder_mem_logPrefix (q : Bool) :
    Event.logEncoder ∈ logPrefix q := by
  cases q <;> simp [logPrefix]

/-- Claim C10: `--output-path` is not required: a command line with
only `--model-file` parses successfully with `output_path` unset; such
a run proceeds through model loading (the encoder is logged) and the
optional self-test, and fails only at the artifact-writing step, when
the unset output path is joined with the first artifact name — no
artifact is written and the output directory is never validated
earlier. -/
theorem output_path_checked_only_at_write :
    (parseArgs ["--model-file", "m.pt"] = ParseResult.ok noOutputArgs) ∧
    (∀ w args model evs err, args.output_path = none →
      w.loadModel args.model_file args.dict_dir = some model →
      (∀ f, args.test_file = some f →
        (runTest w model args.quantize f).2 = none) →
      mainRun w args = (evs, err) →
      err = some BuildError.badOutputPath ∧ writesOf evs = [] ∧
        Event.logEncoder ∈ evs) := by
  refine ⟨by rfl, ?_⟩
  intro w args model evs err hop hmodel htest h
  unfold mainRun at h
  split at h
  · rename_i hm0
    rw [hmodel] at hm0
    cases hm0
  · rename_i model' hm0
    rw [hmodel] at hm0
    injection hm0 with hmm
    subst hmm
    dsimp only at h
    split at h
    · rw [runSaves_no_output w args args.quantize _ hop] at h
      obtain ⟨hevs, herr⟩ := Prod.mk.injEq .. ▸ h
      refine ⟨herr.symm, ?_, ?_⟩
      · rw [← hevs, writesOf_logPrefix]
      · rw [← hevs]
        exact logEncoder_mem_logPrefix args.quantize
    · rename_i f htf
      split at h
      · rename_i tevs e' hrt
        have := htest f htf
        rw [hrt] at this
        cases this
      · rename_i tevs hrt
        rw [runSaves_no_output w args args.quantize _ hop] at h
        obtain ⟨hevs, herr⟩ := Prod.mk.injEq .. ▸ h
        obtain ⟨t, htevs⟩ := runTest_snd_none w model args.quantize f tevs hrt
        refine ⟨herr.symm, ?_, ?_⟩
        · rw [← hevs, htevs, writesOf_append, writesOf_logPrefix]
          rfl
        · rw [← hevs]
          exact List.mem_append_left _ (logEncoder_mem_logPrefix args.quantize)

/-- Witness for C10 at a concrete world and a configuration with no
output path. -/
theorem output_path_checked_only_at_write_witness :
    some BuildError.badOutputPath = some BuildError.badOutputPath ∧
    writesOf [Event.logEncoder] = [] ∧
    Event.logEncoder ∈ [Event.logEncoder] :=
  output_path_checked_only_at_write.2 sampleWorld noOutputArgs 0
    [Event.logEncoder] (some BuildError.badOutputPath) rfl rfl
    (fun _ hf => Option.noConfusion hf) rfl

end BuildPipeline

/-- Claim C9: the models package index exports exactly Wav2Letter,
WaveRNN and ConvTasNet via `__all__`, each of which is bound by an
import, while the `wav2vec2` submodule is imported but not listed in
`__all__`. -/
theorem models_index_exports :
    ModelsIndex.dunderAll = ["Wav2Letter", "WaveRNN", "ConvTasNet"] ∧
    (∀ n ∈ ModelsIndex.dunderAll, n ∈ ModelsIndex.importedNames) ∧
    "wav2vec2" ∈ ModelsIndex.importedNames ∧
    "wav2vec2" ∉ ModelsIndex.dunderAll := by
  refine ⟨rfl, ?_, ?_, ?_⟩ <;> decide
